import Mathlib

/-!
Shallow embedding of `loan_calc_lib.py` (Quellan/Loan-Simulator).

Python floats are modelled as exact rationals (`ℚ`); month counters and
month-valued fields (`term`, `fixed_period`, `time`, exit months,
`month_offset`) are `ℕ`, matching their documented meaning as month counts.
Fallible operations (Python raising `ZeroDivisionError` in the payment
formula, or `dataclasses.replace(None)` when a REAMORTIZING payment lacks
`new_loan_terms`) are modelled with `Option`: `none` is the raised exception.

The `while remaining_principal > 0` loop is embedded as a fuel-indexed
iteration `run`; `run fuel st = none` means the loop either raised or did not
terminate within `fuel` iterations.
-/

namespace LoanSim

/-- `Loan` dataclass of `loan_calc_lib.py`. -/
structure Loan where
  name : Option String
  amount : ℚ
  rate : ℚ
  term : ℕ
  fixed_period : ℕ
  var_rate : Option ℚ := none
deriving Repr, DecidableEq

/-- `Budget` dataclass of `loan_calc_lib.py`. -/
structure Budget where
  name : Option String
  monthly_income : ℚ
  salary_rate_increase : ℚ
  monthly_expenses : ℚ
  expenses_rate_increase : ℚ
  monthly_prop_tax : ℚ
  min_principal_payment : ℚ
  month_offset : ℕ := 0
  overflow_principal_percent : Option ℚ := none
  overflow_principal_abs : Option ℚ := none
deriving Repr, DecidableEq

/-- `PaymentType` enum. -/
inductive PaymentType where
  | DIRECT
  | REAMORTIZING
deriving Repr, DecidableEq

/-- `PrincipalPayment` dataclass. -/
structure PrincipalPayment where
  type : PaymentType
  amount : ℚ
  time : ℕ
  new_loan_terms : Option Loan := none
deriving Repr, DecidableEq

/-- `LoanEval` dataclass.  The Python type annotation declares
`monthly_payments : List[float]`, but both construction sites
(the exit snapshot and the payoff snapshot) assign the current scalar
`monthly_payment`, so the runtime value is a single rational. -/
structure LoanEval where
  loan_name : Option String
  principal_remaining : ℚ
  principal_paid : ℚ
  interest_paid : ℚ
  length : ℕ
  monthly_payments : ℚ
deriving Repr, DecidableEq

/-- `GetMonthlyPayment`.  In Python `0.0 / 0.0` raises `ZeroDivisionError`,
so the result is `none` exactly when the denominator
`(1 + i)^term - 1` vanishes (in particular whenever `rate = 0`). -/
def GetMonthlyPayment (loan : Loan) : Option ℚ :=
  let monthly_int := loan.rate / (12 * 100)
  let den := (1 + monthly_int) ^ loan.term - 1
  if den = 0 then none
  else some (loan.amount * (monthly_int * (1 + monthly_int) ^ loan.term / den))

/-- `0.0 if not l.var_rate else l.var_rate / (12 * 100)`:
Python truthiness treats both `None` and `0.0` as falsy. -/
def monthlyVarOf (var_rate : Option ℚ) : ℚ :=
  match var_rate with
  | none => 0
  | some v => if v = 0 then 0 else v / (12 * 100)

/-- The local variables of `LoanCalc`'s loop.  `callerLoan`/`callerBudget`
hold the caller's records: line 115–116 of the source copy the inputs
(`dataclasses.replace`) into the working fields, so the engine mutates only
the working copies.  The Python index `current_exit` / flag `last_exit` pair
over the (copied) `exits` list is represented by the remaining suffix
`exitsRem`; `payments.reverse()` followed by `pop()` is represented by
keeping the list in original order and taking the head. -/
structure SimState where
  callerLoan : Loan
  callerBudget : Budget
  loanName : Option String
  loanAmount : ℚ
  monthlyPayment : ℚ
  remainingPrincipal : ℚ
  termsPaid : ℕ
  monthlyInt : ℚ
  monthlyVarInt : ℚ
  fixedPeriod : ℕ
  payments : List PrincipalPayment
  nextLumpSum : Option PrincipalPayment
  budget : Budget
  budgetSavings : ℚ
  exitsRem : List ℕ
  interestPaid : ℚ
  loanEvals : List LoanEval
deriving Repr, DecidableEq

/-- The `LoanEval` record built at both snapshot sites
(lines 152–159 and 223–230 of the source). -/
def snapshot (st : SimState) : LoanEval :=
  { loan_name := st.loanName
    principal_remaining := st.remainingPrincipal
    principal_paid := st.loanAmount - st.remainingPrincipal
    interest_paid := st.interestPaid
    length := st.termsPaid
    monthly_payments := st.monthlyPayment }

/-- Lines 149–159: exit check at the top of the loop body. -/
def exitPhase (st : SimState) : SimState :=
  match st.exitsRem with
  | [] => st
  | e :: rest =>
    if st.termsPaid = e then
      { st with exitsRem := rest, loanEvals := st.loanEvals ++ [snapshot st] }
    else st

/-- Lines 174–177: advance the payment cursor (`payments.pop()` on the
reversed list, i.e. take the next payment in original order). -/
def advanceLump (st : SimState) : SimState :=
  match st.payments with
  | q :: qs => { st with nextLumpSum := some q, payments := qs }
  | [] => { st with nextLumpSum := none }

/-- Lines 162–177: lump-sum application.  A REAMORTIZING payment with
`new_loan_terms = None` raises in Python (`dataclasses.replace(None)`), as
does `GetMonthlyPayment` on a degenerate new rate; both are `none` here.
Note that the source bumps `reamor_loan.fixed_period` (line 170) on the
fresh copy `reamor_loan`, which is never read afterwards; the loop's local
`fixed_period` (our `fixedPeriod`) is left unchanged. -/
def lumpPhase (st : SimState) : Option SimState :=
  match st.nextLumpSum with
  | none => some st
  | some p =>
    if p.time = st.termsPaid then
      let st₁ := { st with remainingPrincipal := st.remainingPrincipal - p.amount }
      let applied : Option SimState :=
        match p.type with
        | .DIRECT => some st₁
        | .REAMORTIZING =>
          match p.new_loan_terms with
          | none => none
          | some nl =>
            let reamor : Loan := { nl with amount := st₁.remainingPrincipal }
            match GetMonthlyPayment reamor with
            | none => none
            | some mp =>
              some { st₁ with
                monthlyPayment := mp
                monthlyInt := reamor.rate / (12 * 100)
                monthlyVarInt := monthlyVarOf reamor.var_rate }
      applied.map advanceLump
    else some st

/-- Lines 179–181: savings sweep. -/
def sweepPhase (st : SimState) : SimState :=
  if st.budgetSavings > st.budget.min_principal_payment then
    { st with remainingPrincipal := st.remainingPrincipal - st.budgetSavings
              budgetSavings := 0 }
  else st

/-- Lines 184–198: monthly leftover, interest accrual, variable-rate
surcharge, principal amortization.  Returns the updated state together with
the `monthly_savings` local handed to the overflow step. -/
def interestPhase (st : SimState) : SimState × ℚ :=
  let monthlySavings := st.budget.monthly_income -
      (st.budget.monthly_expenses + st.monthlyPayment + st.budget.monthly_prop_tax)
  let interest := st.monthlyInt * st.remainingPrincipal
  let st₁ := { st with interestPaid := st.interestPaid + interest }
  let withSurcharge : SimState × ℚ :=
    if st₁.termsPaid ≥ st₁.fixedPeriod then
      let extra := (st₁.monthlyVarInt - st₁.monthlyInt) * st₁.remainingPrincipal
      ({ st₁ with interestPaid := st₁.interestPaid + extra }, monthlySavings - extra)
    else (st₁, monthlySavings)
  let st₂ := withSurcharge.1
  ({ st₂ with remainingPrincipal := st₂.remainingPrincipal - (st₂.monthlyPayment - interest) },
   withSurcharge.2)

/-- Lines 201–204: overflow accumulation.  `overflow_principal_percent` is
compared with `is not None`, while `overflow_principal_abs` is tested for
truthiness (`elif budget.overflow_principal_abs:`), so `Some 0` behaves like
`None` in the second branch. -/
def overflowPhase (monthlySavings : ℚ) (st : SimState) : SimState :=
  match st.budget.overflow_principal_percent with
  | some p => { st with budgetSavings := st.budgetSavings + monthlySavings * (p / 100) }
  | none =>
    match st.budget.overflow_principal_abs with
    | some a =>
        if a = 0 then st
        else { st with budgetSavings := st.budgetSavings + min monthlySavings a }
    | none => st

/-- Lines 206 and 216–218: month counter increment and annual budget
adjustment. -/
def yearPhase (st : SimState) : SimState :=
  let st₁ := { st with termsPaid := st.termsPaid + 1 }
  if (st₁.termsPaid + st₁.budget.month_offset) % 12 = 0 then
    { st₁ with budget := { st₁.budget with
        monthly_income := st₁.budget.monthly_income *
          (1 + st₁.budget.salary_rate_increase / 100)
        monthly_expenses := st₁.budget.monthly_expenses *
          (1 + st₁.budget.expenses_rate_increase / 100) } }
  else st₁

/-- One iteration of the `while remaining_principal > 0` body. -/
def step (st : SimState) : Option SimState :=
  (lumpPhase (exitPhase st)).map (fun st₁ =>
    let st₂ := sweepPhase st₁
    let p := interestPhase st₂
    yearPhase (overflowPhase p.2 p.1))

/-- Fuel-indexed embedding of the loop: the guard is checked before each
iteration; `none` means an exception or fuel exhaustion. -/
def run : ℕ → SimState → Option SimState
  | 0, st => if st.remainingPrincipal > 0 then none else some st
  | fuel + 1, st =>
    if st.remainingPrincipal > 0 then (step st).bind (run fuel) else some st

/-- Lines 114–142: initial state of `LoanCalc`.  (The Python also builds a
`monthly_payments` list holding the initial payment at line 142; it is never
read again and is omitted.)  `mp` is the initial monthly payment. -/
def initState (loan : Loan) (budget : Budget) (payments : List PrincipalPayment)
    (exits : List ℕ) (mp : ℚ) : SimState :=
  { callerLoan := loan
    callerBudget := budget
    loanName := loan.name
    loanAmount := loan.amount
    monthlyPayment := mp
    remainingPrincipal := loan.amount
    termsPaid := 0
    monthlyInt := loan.rate / (12 * 100)
    monthlyVarInt := monthlyVarOf loan.var_rate
    fixedPeriod := loan.fixed_period
    payments := payments.drop 1
    nextLumpSum := payments.head?
    budget := budget
    budgetSavings := 0
    exitsRem := exits
    interestPaid := 0
    loanEvals := [] }

/-- `LoanCalc`: run the loop to payoff and append the final snapshot. -/
def LoanCalc (fuel : ℕ) (loan : Loan) (budget : Budget)
    (payments : List PrincipalPayment) (exits : List ℕ) : Option (List LoanEval) :=
  (GetMonthlyPayment loan).bind (fun mp =>
    (run fuel (initState loan budget payments exits mp)).map (fun st =>
      st.loanEvals ++ [snapshot st]))

/-- The call as the caller sees it: the result, plus the contents of the
caller's `loan`, `budget`, `payments` and `exits` records after the call
returns.  The loan/budget records are read back from the final state's
caller fields; the two lists are aliased by the caller throughout (the
engine copies them at lines 119–120 and never writes the originals). -/
def LoanCalcCall (fuel : ℕ) (loan : Loan) (budget : Budget)
    (payments : List PrincipalPayment) (exits : List ℕ) :
    Option (List LoanEval) × Loan × Budget × List PrincipalPayment × List ℕ :=
  match (GetMonthlyPayment loan).bind
      (fun mp => run fuel (initState loan budget payments exits mp)) with
  | none => (none, loan, budget, payments, exits)
  | some st =>
    (some (st.loanEvals ++ [snapshot st]), st.callerLoan, st.callerBudget,
     payments, exits)

/-! ### Concrete inputs used to instantiate the theorems -/

/-- A loan with monthly rate `1200 / (12 * 100) = 1`, so that the payment
formula and the monthly trajectories stay small rationals:
payment `= 3 * (1 * 2^2 / (2^2 - 1)) = 4`, payoff after 2 months. -/
def toyLoan : Loan :=
  { name := some "toy", amount := 3, rate := 1200, term := 2,
    fixed_period := 10, var_rate := none }

/-- A budget with no income, expenses or overflow policy. -/
def zeroBudget : Budget :=
  { name := none, monthly_income := 0, salary_rate_increase := 0,
    monthly_expenses := 0, expenses_rate_increase := 0, monthly_prop_tax := 0,
    min_principal_payment := 0, month_offset := 0,
    overflow_principal_percent := none, overflow_principal_abs := none }

/-- Result of simulating `toyLoan` against `zeroBudget` with one exit at
month 1. -/
def toyRes : List LoanEval := (LoanCalc 3 toyLoan zeroBudget [] [1]).getD []

/-- The month-1 exit snapshot of the `toyLoan` run. -/
def toyEv : LoanEval :=
  { loan_name := some "toy", principal_remaining := 2, principal_paid := 1,
    interest_paid := 3, length := 1, monthly_payments := 4 }

/-- Initial engine state for the `toyLoan`/`zeroBudget` run with no lump
sums and no exits (initial monthly payment 4). -/
def toyInit : SimState := initState toyLoan zeroBudget [] [] 4

/-- The payoff month of a simulation: the `terms_paid` counter of the state
in which the loop terminated. -/
def payoffLength (fuel : ℕ) (loan : Loan) (budget : Budget)
    (payments : List PrincipalPayment) (exits : List ℕ) : Option ℕ :=
  ((GetMonthlyPayment loan).bind
    (fun mp => run fuel (initState loan budget payments exits mp))).map
      SimState.termsPaid

/-- A loan with zero interest rate (payment formula denominator is zero). -/
def zeroRateLoan : Loan :=
  { name := none, amount := 1000, rate := 0, term := 360,
    fixed_period := 360, var_rate := none }

/-- ARM variant of `toyLoan`: same amount/rate/term, fixed period over at
month 0, assumed variable rate 2400 (monthly 2). -/
def toyArm : Loan :=
  { name := some "toy-arm", amount := 3, rate := 1200, term := 2,
    fixed_period := 0, var_rate := some 2400 }

/-- C1 input: original loan is an ARM whose fixed period ends at month 1. -/
def c1Loan : Loan :=
  { name := none, amount := 3, rate := 1200, term := 2,
    fixed_period := 1, var_rate := some 2400 }

/-- C1 input: reamortization terms with a 5-month fixed period (the `amount`
field is ignored by the engine). -/
def c1NewLoan : Loan :=
  { name := none, amount := 0, rate := 1200, term := 2,
    fixed_period := 5, var_rate := some 2400 }

/-- C1 input: REAMORTIZING lump sum of 1 at month 0 resetting to
`c1NewLoan`'s terms. -/
def c1Pay : PrincipalPayment :=
  { type := .REAMORTIZING, amount := 1, time := 0,
    new_loan_terms := some c1NewLoan }

/-- C1 initial state (initial payment from the original loan). -/
def c1Init : SimState :=
  initState c1Loan zeroBudget [c1Pay] [] ((GetMonthlyPayment c1Loan).getD 0)

/-- C4 input: a DIRECT lump sum far exceeding the principal. -/
def c4Loan : Loan :=
  { name := none, amount := 100, rate := 1200, term := 2,
    fixed_period := 5, var_rate := none }

/-- C4 input: the oversized DIRECT payment, applied at month 0. -/
def c4Pay : PrincipalPayment :=
  { type := .DIRECT, amount := 1000, time := 0, new_loan_terms := none }

/-- C4 initial state. -/
def c4Init : SimState :=
  initState c4Loan zeroBudget [c4Pay] [] ((GetMonthlyPayment c4Loan).getD 0)

/-- C6 witness state: pending savings 5 above the threshold 0. -/
def sweepSt : SimState := { toyInit with budgetSavings := 5 }

/-- C7 input: `overflow_principal_abs` set to `0.0` (falsy in Python) and
expenses making the monthly leftover negative. -/
def c7Budget : Budget :=
  { zeroBudget with monthly_expenses := 5, overflow_principal_abs := some 0 }

/-- C7 counterexample initial state. -/
def c7Init : SimState := initState toyLoan c7Budget [] [] 4

/-- C7 witness state: a nonzero `overflow_principal_abs`. -/
def c7AbsSt : SimState :=
  { toyInit with budget := { zeroBudget with overflow_principal_abs := some 7 } }

/-- Relation between an ARM run and the matching fully-fixed run: all state
components that feed the amortization math agree; only the variable-rate
bookkeeping (`monthlyVarInt`, `fixedPeriod`, `interestPaid`, snapshots) may
differ.  Requires no pending lump sums and the overflow policy off. -/
def armRel (s t : SimState) : Prop :=
  s.remainingPrincipal = t.remainingPrincipal ∧
  s.monthlyPayment = t.monthlyPayment ∧
  s.monthlyInt = t.monthlyInt ∧
  s.termsPaid = t.termsPaid ∧
  s.budget = t.budget ∧
  s.budgetSavings = t.budgetSavings ∧
  s.exitsRem = t.exitsRem ∧
  s.nextLumpSum = none ∧ t.nextLumpSum = none ∧
  s.payments = [] ∧ t.payments = [] ∧
  s.budget.overflow_principal_percent = none ∧
  s.budget.overflow_principal_abs = none

/-! ### Frame lemmas for the phases -/

/- `Rat.add` and friends are `@[irreducible]` by default, which keeps
`decide` from evaluating concrete simulation runs; restore the default
reducibility for this file. -/
attribute [local semireducible] Rat.add Rat.sub Rat.mul Rat.inv

theorem exitPhase_frame (st : SimState) :
    (exitPhase st).remainingPrincipal = st.remainingPrincipal ∧
    (exitPhase st).termsPaid = st.termsPaid ∧
    (exitPhase st).monthlyPayment = st.monthlyPayment ∧
    (exitPhase st).monthlyInt = st.monthlyInt ∧
    (exitPhase st).monthlyVarInt = st.monthlyVarInt ∧
    (exitPhase st).fixedPeriod = st.fixedPeriod ∧
    (exitPhase st).budget = st.budget ∧
    (exitPhase st).budgetSavings = st.budgetSavings ∧
    (exitPhase st).payments = st.payments ∧
    (exitPhase st).nextLumpSum = st.nextLumpSum ∧
    (exitPhase st).interestPaid = st.interestPaid ∧
    (exitPhase st).loanAmount = st.loanAmount ∧
    (exitPhase st).loanName = st.loanName ∧
    (exitPhase st).callerLoan = st.callerLoan ∧
    (exitPhase st).callerBudget = st.callerBudget := by
  unfold exitPhase
  cases st.exitsRem with
  | nil => simp
  | cons e rest => by_cases h : st.termsPaid = e <;> simp [h]

theorem advanceLump_frame (st : SimState) :
    (advanceLump st).termsPaid = st.termsPaid ∧
    (advanceLump st).exitsRem = st.exitsRem ∧
    (advanceLump st).loanEvals = st.loanEvals ∧
    (advanceLump st).remainingPrincipal = st.remainingPrincipal ∧
    (advanceLump st).monthlyPayment = st.monthlyPayment ∧
    (advanceLump st).monthlyInt = st.monthlyInt ∧
    (advanceLump st).monthlyVarInt = st.monthlyVarInt ∧
    (advanceLump st).fixedPeriod = st.fixedPeriod ∧
    (advanceLump st).budget = st.budget ∧
    (advanceLump st).budgetSavings = st.budgetSavings ∧
    (advanceLump st).interestPaid = st.interestPaid ∧
    (advanceLump st).loanAmount = st.loanAmount ∧
    (advanceLump st).loanName = st.loanName ∧
    (advanceLump st).callerLoan = st.callerLoan ∧
    (advanceLump st).callerBudget = st.callerBudget := by
  unfold advanceLump
  cases hq : st.payments <;> simp

theorem lumpPhase_frame (st st' : SimState) (h : lumpPhase st = some st') :
    st'.termsPaid = st.termsPaid ∧
    st'.exitsRem = st.exitsRem ∧
    st'.loanEvals = st.loanEvals ∧
    st'.fixedPeriod = st.fixedPeriod ∧
    st'.budget = st.budget ∧
    st'.budgetSavings = st.budgetSavings ∧
    st'.interestPaid = st.interestPaid ∧
    st'.loanAmount = st.loanAmount ∧
    st'.loanName = st.loanName ∧
    st'.callerLoan = st.callerLoan ∧
    st'.callerBudget = st.callerBudget := by
  unfold lumpPhase at h
  split at h
  · cases h; simp
  · rename_i p
    split at h
    · rw [Option.map_eq_some'] at h
      obtain ⟨st₂, h₂, hf⟩ := h
      have hadv := advanceLump_frame st₂
      have hframe2 : st₂.termsPaid = st.termsPaid ∧ st₂.exitsRem = st.exitsRem ∧
          st₂.loanEvals = st.loanEvals ∧ st₂.fixedPeriod = st.fixedPeriod ∧
          st₂.budget = st.budget ∧ st₂.budgetSavings = st.budgetSavings ∧
          st₂.interestPaid = st.interestPaid ∧ st₂.loanAmount = st.loanAmount ∧
          st₂.loanName = st.loanName ∧ st₂.callerLoan = st.callerLoan ∧
          st₂.callerBudget = st.callerBudget := by
        dsimp only at h₂
        split at h₂
        · cases h₂; simp
        · split at h₂
          · cases h₂
          · split at h₂
            · cases h₂
            · cases h₂; simp
      rw [← hf]
      exact ⟨hadv.1.trans hframe2.1, hadv.2.1.trans hframe2.2.1,
        hadv.2.2.1.trans hframe2.2.2.1, hadv.2.2.2.2.2.2.2.1.trans hframe2.2.2.2.1,
        hadv.2.2.2.2.2.2.2.2.1.trans hframe2.2.2.2.2.1,
        hadv.2.2.2.2.2.2.2.2.2.1.trans hframe2.2.2.2.2.2.1,
        hadv.2.2.2.2.2.2.2.2.2.2.1.trans hframe2.2.2.2.2.2.2.1,
        hadv.2.2.2.2.2.2.2.2.2.2.2.1.trans hframe2.2.2.2.2.2.2.2.1,
        hadv.2.2.2.2.2.2.2.2.2.2.2.2.1.trans hframe2.2.2.2.2.2.2.2.2.1,
        hadv.2.2.2.2.2.2.2.2.2.2.2.2.2.1.trans hframe2.2.2.2.2.2.2.2.2.2.1,
        hadv.2.2.2.2.2.2.2.2.2.2.2.2.2.2.trans hframe2.2.2.2.2.2.2.2.2.2.2⟩
    · cases h; simp

theorem sweepPhase_frame (st : SimState) :
    (sweepPhase st).termsPaid = st.termsPaid ∧
    (sweepPhase st).exitsRem = st.exitsRem ∧
    (sweepPhase st).loanEvals = st.loanEvals ∧
    (sweepPhase st).monthlyPayment = st.monthlyPayment ∧
    (sweepPhase st).monthlyInt = st.monthlyInt ∧
    (sweepPhase st).monthlyVarInt = st.monthlyVarInt ∧
    (sweepPhase st).fixedPeriod = st.fixedPeriod ∧
    (sweepPhase st).budget = st.budget ∧
    (sweepPhase st).payments = st.payments ∧
    (sweepPhase st).nextLumpSum = st.nextLumpSum ∧
    (sweepPhase st).interestPaid = st.interestPaid ∧
    (sweepPhase st).loanAmount = st.loanAmount ∧
    (sweepPhase st).loanName = st.loanName ∧
    (sweepPhase st).callerLoan = st.callerLoan ∧
    (sweepPhase st).callerBudget = st.callerBudget := by
  unfold sweepPhase
  by_cases h : st.budgetSavings > st.budget.min_principal_payment <;> simp [h]

theorem interestPhase_frame (st : SimState) :
    (interestPhase st).1.termsPaid = st.termsPaid ∧
    (interestPhase st).1.exitsRem = st.exitsRem ∧
    (interestPhase st).1.loanEvals = st.loanEvals ∧
    (interestPhase st).1.monthlyPayment = st.monthlyPayment ∧
    (interestPhase st).1.monthlyInt = st.monthlyInt ∧
    (interestPhase st).1.monthlyVarInt = st.monthlyVarInt ∧
    (interestPhase st).1.fixedPeriod = st.fixedPeriod ∧
    (interestPhase st).1.budget = st.budget ∧
    (interestPhase st).1.budgetSavings = st.budgetSavings ∧
    (interestPhase st).1.payments = st.payments ∧
    (interestPhase st).1.nextLumpSum = st.nextLumpSum ∧
    (interestPhase st).1.loanAmount = st.loanAmount ∧
    (interestPhase st).1.loanName = st.loanName ∧
    (interestPhase st).1.callerLoan = st.callerLoan ∧
    (interestPhase st).1.callerBudget = st.callerBudget := by
  unfold interestPhase
  by_cases h : st.termsPaid ≥ st.fixedPeriod <;> simp [h]

theorem overflowPhase_frame (ms : ℚ) (st : SimState) :
    (overflowPhase ms st).termsPaid = st.termsPaid ∧
    (overflowPhase ms st).exitsRem = st.exitsRem ∧
    (overflowPhase ms st).loanEvals = st.loanEvals ∧
    (overflowPhase ms st).remainingPrincipal = st.remainingPrincipal ∧
    (overflowPhase ms st).monthlyPayment = st.monthlyPayment ∧
    (overflowPhase ms st).monthlyInt = st.monthlyInt ∧
    (overflowPhase ms st).monthlyVarInt = st.monthlyVarInt ∧
    (overflowPhase ms st).fixedPeriod = st.fixedPeriod ∧
    (overflowPhase ms st).budget = st.budget ∧
    (overflowPhase ms st).payments = st.payments ∧
    (overflowPhase ms st).nextLumpSum = st.nextLumpSum ∧
    (overflowPhase ms st).interestPaid = st.interestPaid ∧
    (overflowPhase ms st).loanAmount = st.loanAmount ∧
    (overflowPhase ms st).loanName = st.loanName ∧
    (overflowPhase ms st).callerLoan = st.callerLoan ∧
    (overflowPhase ms st).callerBudget = st.callerBudget := by
  unfold overflowPhase
  cases hp : st.budget.overflow_principal_percent with
  | some p => simp
  | none =>
    cases ha : st.budget.overflow_principal_abs with
    | none => simp
    | some a => by_cases hz : a = 0 <;> simp [hz]

theorem yearPhase_frame (st : SimState) :
    (yearPhase st).termsPaid = st.termsPaid + 1 ∧
    (yearPhase st).exitsRem = st.exitsRem ∧
    (yearPhase st).loanEvals = st.loanEvals ∧
    (yearPhase st).remainingPrincipal = st.remainingPrincipal ∧
    (yearPhase st).monthlyPayment = st.monthlyPayment ∧
    (yearPhase st).monthlyInt = st.monthlyInt ∧
    (yearPhase st).monthlyVarInt = st.monthlyVarInt ∧
    (yearPhase st).fixedPeriod = st.fixedPeriod ∧
    (yearPhase st).budgetSavings = st.budgetSavings ∧
    (yearPhase st).payments = st.payments ∧
    (yearPhase st).nextLumpSum = st.nextLumpSum ∧
    (yearPhase st).interestPaid = st.interestPaid ∧
    (yearPhase st).loanAmount = st.loanAmount ∧
    (yearPhase st).loanName = st.loanName ∧
    (yearPhase st).callerLoan = st.callerLoan ∧
    (yearPhase st).callerBudget = st.callerBudget ∧
    (yearPhase st).budget.name = st.budget.name ∧
    (yearPhase st).budget.salary_rate_increase = st.budget.salary_rate_increase ∧
    (yearPhase st).budget.expenses_rate_increase = st.budget.expenses_rate_increase ∧
    (yearPhase st).budget.monthly_prop_tax = st.budget.monthly_prop_tax ∧
    (yearPhase st).budget.min_principal_payment = st.budget.min_principal_payment ∧
    (yearPhase st).budget.month_offset = st.budget.month_offset ∧
    (yearPhase st).budget.overflow_principal_percent =
      st.budget.overflow_principal_percent ∧
    (yearPhase st).budget.overflow_principal_abs = st.budget.overflow_principal_abs := by
  unfold yearPhase
  by_cases h : (st.termsPaid + 1 + st.budget.month_offset) % 12 = 0 <;> simp [h]

theorem step_frame (st st' : SimState) (h : step st = some st') :
    st'.termsPaid = st.termsPaid + 1 ∧
    st'.exitsRem = (exitPhase st).exitsRem ∧
    st'.loanEvals = (exitPhase st).loanEvals ∧
    st'.fixedPeriod = st.fixedPeriod ∧
    st'.loanAmount = st.loanAmount ∧
    st'.loanName = st.loanName ∧
    st'.callerLoan = st.callerLoan ∧
    st'.callerBudget = st.callerBudget ∧
    st'.budget.name = st.budget.name ∧
    st'.budget.salary_rate_increase = st.budget.salary_rate_increase ∧
    st'.budget.expenses_rate_increase = st.budget.expenses_rate_increase ∧
    st'.budget.monthly_prop_tax = st.budget.monthly_prop_tax ∧
    st'.budget.min_principal_payment = st.budget.min_principal_payment ∧
    st'.budget.month_offset = st.budget.month_offset ∧
    st'.budget.overflow_principal_percent = st.budget.overflow_principal_percent ∧
    st'.budget.overflow_principal_abs = st.budget.overflow_principal_abs := by
  rw [step, Option.map_eq_some'] at h
  obtain ⟨st₁, hl, hf⟩ := h
  obtain ⟨e1, e2, e3, e4, e5, e6, e7, e8, e9, e10, e11, e12, e13, e14, e15⟩ :=
    exitPhase_frame st
  obtain ⟨l1, l2, l3, l4, l5, l6, l7, l8, l9, l10, l11⟩ :=
    lumpPhase_frame (exitPhase st) st₁ hl
  obtain ⟨s1, s2, s3, s4, s5, s6, s7, s8, s9, s10, s11, s12, s13, s14, s15⟩ :=
    sweepPhase_frame st₁
  obtain ⟨i1, i2, i3, i4, i5, i6, i7, i8, i9, i10, i11, i12, i13, i14, i15⟩ :=
    interestPhase_frame (sweepPhase st₁)
  obtain ⟨o1, o2, o3, o4, o5, o6, o7, o8, o9, o10, o11, o12, o13, o14, o15, o16⟩ :=
    overflowPhase_frame (interestPhase (sweepPhase st₁)).2 (interestPhase (sweepPhase st₁)).1
  obtain ⟨y1, y2, y3, y4, y5, y6, y7, y8, y9, y10, y11, y12, y13, y14, y15, y16,
      y17, y18, y19, y20, y21, y22, y23, y24⟩ :=
    yearPhase_frame (overflowPhase (interestPhase (sweepPhase st₁)).2
      (interestPhase (sweepPhase st₁)).1)
  subst hf
  refine ⟨?_, ?_, ?_, ?_, ?_, ?_, ?_, ?_, ?_, ?_, ?_, ?_, ?_, ?_, ?_, ?_⟩
  · rw [y1, o1, i1, s1, l1, e2]
  · rw [y2, o2, i2, s2, l2]
  · rw [y3, o3, i3, s3, l3]
  · rw [y8, o8, i7, s7, l4, e6]
  · rw [y13, o13, i12, s12, l8, e12]
  · rw [y14, o14, i13, s13, l9, e13]
  · rw [y15, o15, i14, s14, l10, e14]
  · rw [y16, o16, i15, s15, l11, e15]
  · rw [y17, o9, i8, s8, l5, e7]
  · rw [y18, o9, i8, s8, l5, e7]
  · rw [y19, o9, i8, s8, l5, e7]
  · rw [y20, o9, i8, s8, l5, e7]
  · rw [y21, o9, i8, s8, l5, e7]
  · rw [y22, o9, i8, s8, l5, e7]
  · rw [y23, o9, i8, s8, l5, e7]
  · rw [y24, o9, i8, s8, l5, e7]

/-! ### Run-level machinery -/

theorem step_decomp (st st' : SimState) (h : step st = some st') :
    ∃ st₁, lumpPhase (exitPhase st) = some st₁ ∧
      st' = yearPhase (overflowPhase (interestPhase (sweepPhase st₁)).2
        (interestPhase (sweepPhase st₁)).1) := by
  rw [step, Option.map_eq_some'] at h
  obtain ⟨a, h1, h2⟩ := h
  exact ⟨a, h1, h2.symm⟩

theorem run_induction (P : SimState → Prop)
    (hstep : ∀ st st', step st = some st' → P st → P st') :
    ∀ fuel st st', run fuel st = some st' → P st → P st' := by
  intro fuel
  induction fuel with
  | zero =>
    intro st st' h hP
    rw [run] at h
    split at h
    · cases h
    · cases h; exact hP
  | succ n ih =>
    intro st st' h hP
    rw [run] at h
    split at h
    · rw [Option.bind_eq_some] at h
      obtain ⟨st₂, h₂, hrest⟩ := h
      exact ih st₂ st' hrest (hstep st st₂ h₂ hP)
    · cases h; exact hP

theorem exitPhase_loanEvals (st : SimState) :
    (exitPhase st).loanEvals = st.loanEvals ∨
    (exitPhase st).loanEvals = st.loanEvals ++ [snapshot st] := by
  unfold exitPhase
  cases st.exitsRem with
  | nil => exact Or.inl rfl
  | cons e rest =>
    by_cases h : st.termsPaid = e
    · simp [h]
    · simp [h]

theorem snapshot_accounting (st : SimState) :
    (snapshot st).principal_paid + (snapshot st).principal_remaining =
      st.loanAmount := by
  simp [snapshot]

theorem LoanCalc_decomp (fuel : ℕ) (loan : Loan) (budget : Budget)
    (payments : List PrincipalPayment) (exits : List ℕ) (res : List LoanEval)
    (h : LoanCalc fuel loan budget payments exits = some res) :
    ∃ mp st', GetMonthlyPayment loan = some mp ∧
      run fuel (initState loan budget payments exits mp) = some st' ∧
      res = st'.loanEvals ++ [snapshot st'] := by
  rw [LoanCalc, Option.bind_eq_some] at h
  obtain ⟨mp, hmp, h⟩ := h
  rw [Option.map_eq_some'] at h
  obtain ⟨st', hrun, hres⟩ := h
  exact ⟨mp, st', hmp, hrun, hres.symm⟩

/-- **C3**: At every snapshot `LoanCalc` emits — each exit snapshot and the
final payoff snapshot — `principal_paid` equals the original loan amount
minus `principal_remaining`, so `principal_paid + principal_remaining` is the
original `loan.amount`.  The statement quantifies over arbitrary payment
lists, so it covers runs containing REAMORTIZING payments: the accounting
stays against the original amount, independent of any reset. -/
theorem LoanCalc_principal_accounting (fuel : ℕ) (loan : Loan) (budget : Budget)
    (payments : List PrincipalPayment) (exits : List ℕ) (res : List LoanEval)
    (h : LoanCalc fuel loan budget payments exits = some res) :
    ∀ ev ∈ res, ev.principal_paid + ev.principal_remaining = loan.amount := by
  obtain ⟨mp, st', hmp, hrun, hres⟩ := LoanCalc_decomp fuel loan budget payments exits res h
  have hinv : st'.loanAmount = loan.amount ∧
      ∀ ev ∈ st'.loanEvals, ev.principal_paid + ev.principal_remaining = loan.amount := by
    refine run_induction
      (fun s => s.loanAmount = loan.amount ∧
        ∀ ev ∈ s.loanEvals, ev.principal_paid + ev.principal_remaining = loan.amount)
      ?_ fuel _ st' hrun ⟨rfl, by simp [initState]⟩
    intro s s' hstep ⟨hA, hevs⟩
    obtain ⟨-, -, hle, -, hA', -⟩ := step_frame s s' hstep
    refine ⟨hA'.trans hA, ?_⟩
    rw [hle]
    rcases exitPhase_loanEvals s with hcase | hcase <;> rw [hcase]
    · exact hevs
    · intro ev hev
      rcases List.mem_append.mp hev with hin | hin
      · exact hevs ev hin
      · rcases List.mem_singleton.mp hin with rfl
        rw [snapshot_accounting, hA]
  intro ev hev
  rw [hres] at hev
  rcases List.mem_append.mp hev with hin | hin
  · exact hinv.2 ev hin
  · rcases List.mem_singleton.mp hin with rfl
    rw [snapshot_accounting, hinv.1]

/-- Witness for C3: the month-1 exit snapshot of the concrete `toyLoan` run
satisfies the accounting identity. -/
theorem LoanCalc_principal_accounting_witness :
    toyEv.principal_paid + toyEv.principal_remaining = toyLoan.amount :=
  LoanCalc_principal_accounting 3 toyLoan zeroBudget [] [1] toyRes (by decide)
    toyEv (by decide)

/-- **C8**: `LoanCalc` never mutates the caller's argument records: after a
call the caller's loan, budget, payments and exits hold exactly the values
passed in, and a second call on those records returns the same snapshot
sequence as the first. -/
theorem LoanCalcCall_isolation (fuel : ℕ) (loan : Loan) (budget : Budget)
    (payments : List PrincipalPayment) (exits : List ℕ) :
    (LoanCalcCall fuel loan budget payments exits).2 =
      (loan, budget, payments, exits) ∧
    (LoanCalcCall fuel (LoanCalcCall fuel loan budget payments exits).2.1
        (LoanCalcCall fuel loan budget payments exits).2.2.1
        (LoanCalcCall fuel loan budget payments exits).2.2.2.1
        (LoanCalcCall fuel loan budget payments exits).2.2.2.2).1 =
      (LoanCalcCall fuel loan budget payments exits).1 := by
  have hmain : (LoanCalcCall fuel loan budget payments exits).2 =
      (loan, budget, payments, exits) := by
    unfold LoanCalcCall
    cases hr : (GetMonthlyPayment loan).bind
        (fun mp => run fuel (initState loan budget payments exits mp)) with
    | none => rfl
    | some st =>
      obtain ⟨mp, hmp, hrun⟩ := Option.bind_eq_some.mp hr
      have hpres : st.callerLoan = loan ∧ st.callerBudget = budget :=
        run_induction (fun s => s.callerLoan = loan ∧ s.callerBudget = budget)
          (fun s s' hs hP => by
            obtain ⟨-, -, -, -, -, -, hcl, hcb, -⟩ := step_frame s s' hs
            exact ⟨hcl.trans hP.1, hcb.trans hP.2⟩)
          fuel _ st hrun ⟨rfl, rfl⟩
      simp [hpres.1, hpres.2]
  exact ⟨hmain, by rw [hmain]⟩

/-- **C10**: over any number of loop iterations the working budget's
`monthly_prop_tax`, `min_principal_payment`, `overflow_principal_percent`
and `overflow_principal_abs` are never modified; and the annual adjustment
of a single step multiplies only `monthly_income` and `monthly_expenses` by
their growth factors when `(monthsElapsed + month_offset) % 12 = 0` fires
(after the increment), leaving the budget untouched otherwise. -/
theorem LoanCalc_budget_frame :
    (∀ fuel st st', run fuel st = some st' →
        st'.budget.monthly_prop_tax = st.budget.monthly_prop_tax ∧
        st'.budget.min_principal_payment = st.budget.min_principal_payment ∧
        st'.budget.overflow_principal_percent =
          st.budget.overflow_principal_percent ∧
        st'.budget.overflow_principal_abs = st.budget.overflow_principal_abs) ∧
    (∀ st st', step st = some st' →
        ((st.termsPaid + 1 + st.budget.month_offset) % 12 = 0 →
          st'.budget.monthly_income =
            st.budget.monthly_income * (1 + st.budget.salary_rate_increase / 100) ∧
          st'.budget.monthly_expenses =
            st.budget.monthly_expenses *
              (1 + st.budget.expenses_rate_increase / 100)) ∧
        ((st.termsPaid + 1 + st.budget.month_offset) % 12 ≠ 0 →
          st'.budget = st.budget)) := by
  constructor
  · intro fuel st st' hrun
    exact run_induction
      (fun s => s.budget.monthly_prop_tax = st.budget.monthly_prop_tax ∧
        s.budget.min_principal_payment = st.budget.min_principal_payment ∧
        s.budget.overflow_principal_percent =
          st.budget.overflow_principal_percent ∧
        s.budget.overflow_principal_abs = st.budget.overflow_principal_abs)
      (fun s s' hs hP => by
        obtain ⟨-, -, -, -, -, -, -, -, -, -, -, hpt, hmin, -, hperc, habs⟩ :=
          step_frame s s' hs
        exact ⟨hpt.trans hP.1, hmin.trans hP.2.1, hperc.trans hP.2.2.1,
          habs.trans hP.2.2.2⟩)
      fuel st st' hrun ⟨rfl, rfl, rfl, rfl⟩
  · intro st st' hstep
    obtain ⟨st₁, hl, hst'⟩ := step_decomp st st' hstep
    obtain ⟨e1, e2, e3, e4, e5, e6, e7, e8, e9, e10, e11, e12, e13, e14, e15⟩ :=
      exitPhase_frame st
    obtain ⟨l1, l2, l3, l4, l5, l6, l7, l8, l9, l10, l11⟩ :=
      lumpPhase_frame (exitPhase st) st₁ hl
    obtain ⟨s1, s2, s3, s4, s5, s6, s7, s8, s9, s10, s11, s12, s13, s14, s15⟩ :=
      sweepPhase_frame st₁
    obtain ⟨i1, i2, i3, i4, i5, i6, i7, i8, i9, i10, i11, i12, i13, i14, i15⟩ :=
      interestPhase_frame (sweepPhase st₁)
    obtain ⟨o1, o2, o3, o4, o5, o6, o7, o8, o9, o10, o11, o12, o13, o14, o15, o16⟩ :=
      overflowPhase_frame (interestPhase (sweepPhase st₁)).2
        (interestPhase (sweepPhase st₁)).1
    have hzb : (overflowPhase (interestPhase (sweepPhase st₁)).2
        (interestPhase (sweepPhase st₁)).1).budget = st.budget := by
      rw [o9, i8, s8, l5, e7]
    have hzt : (overflowPhase (interestPhase (sweepPhase st₁)).2
        (interestPhase (sweepPhase st₁)).1).termsPaid = st.termsPaid := by
      rw [o1, i1, s1, l1, e2]
    have hyear : st'.budget =
        if (st.termsPaid + 1 + st.budget.month_offset) % 12 = 0 then
          { st.budget with
            monthly_income := st.budget.monthly_income *
              (1 + st.budget.salary_rate_increase / 100)
            monthly_expenses := st.budget.monthly_expenses *
              (1 + st.budget.expenses_rate_increase / 100) }
        else st.budget := by
      rw [hst', yearPhase]
      by_cases hc : (st.termsPaid + 1 + st.budget.month_offset) % 12 = 0 <;>
        simp [hzt, hzb, hc]
    refine ⟨fun hy => ?_, fun hn => ?_⟩
    · rw [hyear, if_pos hy]
      exact ⟨rfl, rfl⟩
    · rw [hyear, if_neg hn]

/-- Witness for C10: in the concrete `toyLoan` run, after two simulated
months the four protected budget fields are unchanged. -/
theorem LoanCalc_budget_frame_witness :
    ((run 2 toyInit).getD toyInit).budget.monthly_prop_tax =
      toyInit.budget.monthly_prop_tax ∧
    ((run 2 toyInit).getD toyInit).budget.min_principal_payment =
      toyInit.budget.min_principal_payment ∧
    ((run 2 toyInit).getD toyInit).budget.overflow_principal_percent =
      toyInit.budget.overflow_principal_percent ∧
    ((run 2 toyInit).getD toyInit).budget.overflow_principal_abs =
      toyInit.budget.overflow_principal_abs :=
  LoanCalc_budget_frame.1 2 toyInit ((run 2 toyInit).getD toyInit) (by decide)

/-! ### Equation lemmas for single phases -/

theorem interestPhase_interestPaid (s : SimState) :
    (interestPhase s).1.interestPaid =
      s.interestPaid + s.monthlyInt * s.remainingPrincipal +
        (if s.termsPaid ≥ s.fixedPeriod then
          (s.monthlyVarInt - s.monthlyInt) * s.remainingPrincipal else 0) := by
  unfold interestPhase
  by_cases h : s.termsPaid ≥ s.fixedPeriod <;> simp [h]

theorem interestPhase_remainingPrincipal (s : SimState) :
    (interestPhase s).1.remainingPrincipal =
      s.remainingPrincipal -
        (s.monthlyPayment - s.monthlyInt * s.remainingPrincipal) := by
  unfold interestPhase
  by_cases h : s.termsPaid ≥ s.fixedPeriod <;> simp [h]

theorem interestPhase_monthlySavings (s : SimState) :
    (interestPhase s).2 =
      s.budget.monthly_income -
        (s.budget.monthly_expenses + s.monthlyPayment + s.budget.monthly_prop_tax) -
        (if s.termsPaid ≥ s.fixedPeriod then
          (s.monthlyVarInt - s.monthlyInt) * s.remainingPrincipal else 0) := by
  unfold interestPhase
  by_cases h : s.termsPaid ≥ s.fixedPeriod <;> simp [h]

theorem sweepPhase_remainingPrincipal (s : SimState) :
    (sweepPhase s).remainingPrincipal =
      if s.budgetSavings > s.budget.min_principal_payment then
        s.remainingPrincipal - s.budgetSavings
      else s.remainingPrincipal := by
  unfold sweepPhase
  by_cases h : s.budgetSavings > s.budget.min_principal_payment <;> simp [h]

theorem sweepPhase_budgetSavings (s : SimState) :
    (sweepPhase s).budgetSavings =
      if s.budgetSavings > s.budget.min_principal_payment then 0
      else s.budgetSavings := by
  unfold sweepPhase
  by_cases h : s.budgetSavings > s.budget.min_principal_payment <;> simp [h]

theorem exitPhase_exitsRem (s : SimState) :
    (exitPhase s).exitsRem =
      match s.exitsRem with
      | [] => []
      | e :: rest => if s.termsPaid = e then rest else e :: rest := by
  cases h : s.exitsRem with
  | nil => simp [exitPhase, h]
  | cons e rest => by_cases ht : s.termsPaid = e <;> simp [exitPhase, h, ht]

theorem overflowPhase_none (ms : ℚ) (s : SimState)
    (h1 : s.budget.overflow_principal_percent = none)
    (h2 : s.budget.overflow_principal_abs = none) :
    overflowPhase ms s = s := by
  unfold overflowPhase
  rw [h1, h2]

theorem yearPhase_budget (s : SimState) :
    (yearPhase s).budget =
      if (s.termsPaid + 1 + s.budget.month_offset) % 12 = 0 then
        { s.budget with
          monthly_income := s.budget.monthly_income *
            (1 + s.budget.salary_rate_increase / 100)
          monthly_expenses := s.budget.monthly_expenses *
            (1 + s.budget.expenses_rate_increase / 100) }
      else s.budget := by
  unfold yearPhase
  by_cases h : (s.termsPaid + 1 + s.budget.month_offset) % 12 = 0 <;> simp [h]

/-! ### The claims -/

/-- **C9**: `GetMonthlyPayment` is a pure function; with annual rate 0 the
denominator `(1+i)^term - 1` vanishes and the division-by-zero fault
propagates (`none`), with no special-cased `amount/term` fallback; whenever
`(1+i)^term ≠ 1` the payment is defined and equals
`principal * i * (1+i)^term / ((1+i)^term - 1)`. -/
theorem GetMonthlyPayment_spec (loan : Loan) :
    (loan.rate = 0 → GetMonthlyPayment loan = none) ∧
    ((1 + loan.rate / (12 * 100)) ^ loan.term ≠ 1 →
      GetMonthlyPayment loan = some (loan.amount *
        (loan.rate / (12 * 100) * (1 + loan.rate / (12 * 100)) ^ loan.term /
          ((1 + loan.rate / (12 * 100)) ^ loan.term - 1)))) := by
  constructor
  · intro h
    simp [GetMonthlyPayment, h]
  · intro h
    unfold GetMonthlyPayment
    rw [if_neg (sub_ne_zero.mpr h)]

/-- Witness for C9: zero rate faults; `toyLoan` (rate 1200, term 2) gets the
closed-form payment. -/
theorem GetMonthlyPayment_spec_witness :
    GetMonthlyPayment zeroRateLoan = none ∧
    GetMonthlyPayment toyLoan = some (toyLoan.amount *
      (toyLoan.rate / (12 * 100) * (1 + toyLoan.rate / (12 * 100)) ^ toyLoan.term /
        ((1 + toyLoan.rate / (12 * 100)) ^ toyLoan.term - 1))) :=
  ⟨(GetMonthlyPayment_spec zeroRateLoan).1 (by decide),
   (GetMonthlyPayment_spec toyLoan).2 (by decide)⟩

/-- **C6**: at the sweep step, pending savings above the threshold are
subtracted from the principal and reset to zero, and the month's interest
then accrues on the already-reduced principal; with savings at or below the
threshold the sweep changes nothing. -/
theorem sweep_spec (st : SimState) :
    (st.budgetSavings > st.budget.min_principal_payment →
      (sweepPhase st).remainingPrincipal =
        st.remainingPrincipal - st.budgetSavings ∧
      (sweepPhase st).budgetSavings = 0) ∧
    (¬ st.budgetSavings > st.budget.min_principal_payment →
      sweepPhase st = st) ∧
    (st.budgetSavings > st.budget.min_principal_payment →
      (interestPhase (sweepPhase st)).1.interestPaid =
        st.interestPaid +
          st.monthlyInt * (st.remainingPrincipal - st.budgetSavings) +
          (if st.termsPaid ≥ st.fixedPeriod then
            (st.monthlyVarInt - st.monthlyInt) *
              (st.remainingPrincipal - st.budgetSavings) else 0)) := by
  obtain ⟨s1, s2, s3, s4, s5, s6, s7, s8, s9, s10, s11, s12, s13, s14, s15⟩ :=
    sweepPhase_frame st
  refine ⟨fun h => ?_, fun h => ?_, fun h => ?_⟩
  · rw [sweepPhase_remainingPrincipal, if_pos h, sweepPhase_budgetSavings, if_pos h]
    exact ⟨rfl, rfl⟩
  · unfold sweepPhase
    rw [if_neg h]
  · rw [interestPhase_interestPaid, s11, s5, s6, s1, s7,
      sweepPhase_remainingPrincipal, if_pos h]

/-- Witness for C6: a concrete state with pending savings 5 over threshold 0
has its principal reduced before interest accrues. -/
theorem sweep_spec_witness :
    ((sweepPhase sweepSt).remainingPrincipal =
        sweepSt.remainingPrincipal - sweepSt.budgetSavings ∧
      (sweepPhase sweepSt).budgetSavings = 0) ∧
    (interestPhase (sweepPhase sweepSt)).1.interestPaid =
      sweepSt.interestPaid +
        sweepSt.monthlyInt * (sweepSt.remainingPrincipal - sweepSt.budgetSavings) +
        (if sweepSt.termsPaid ≥ sweepSt.fixedPeriod then
          (sweepSt.monthlyVarInt - sweepSt.monthlyInt) *
            (sweepSt.remainingPrincipal - sweepSt.budgetSavings) else 0) :=
  ⟨(sweep_spec sweepSt).1 (by decide), (sweep_spec sweepSt).2.2 (by decide)⟩

/-- Counterexample to **C4** as stated: a DIRECT lump sum exceeding the
remaining principal drives the principal negative before interest accrues,
so the month's interest `monthly_int * remaining_principal` is negative and
cumulative `interest_paid` falls from 0 to −900 between month 0 and
month 1 (the run's single simulated month). -/
theorem interest_monotone_counterexample :
    c4Init.interestPaid = 0 ∧
    ((step c4Init).getD c4Init).interestPaid = -900 ∧
    ((step c4Init).getD c4Init).interestPaid < c4Init.interestPaid ∧
    (LoanCalc 2 c4Loan zeroBudget [c4Pay] []).map
      (fun r => r.map LoanEval.interest_paid) = some [-900] := by
  refine ⟨rfl, by decide, by decide, by decide⟩

/-- **C4 (amended)**: a month's step never decreases `interest_paid`
provided the fixed and variable monthly rates in effect after the lump-sum
check are nonnegative and the remaining principal is nonnegative when
interest accrues (i.e. after the lump-sum and savings-sweep updates). -/
theorem step_interest_monotone (st st₁ st' : SimState)
    (hl : lumpPhase (exitPhase st) = some st₁)
    (hstep : step st = some st')
    (hi : 0 ≤ st₁.monthlyInt) (hv : 0 ≤ st₁.monthlyVarInt)
    (hp : 0 ≤ (sweepPhase st₁).remainingPrincipal) :
    st.interestPaid ≤ st'.interestPaid := by
  obtain ⟨st₂, hl', hst'⟩ := step_decomp st st' hstep
  rw [hl'] at hl
  injection hl with h12
  rw [h12] at hst'
  rw [h12] at hl'
  obtain ⟨e1, e2, e3, e4, e5, e6, e7, e8, e9, e10, e11, e12, e13, e14, e15⟩ :=
    exitPhase_frame st
  obtain ⟨l1, l2, l3, l4, l5, l6, l7, l8, l9, l10, l11⟩ :=
    lumpPhase_frame (exitPhase st) st₁ hl'
  obtain ⟨s1, s2, s3, s4, s5, s6, s7, s8, s9, s10, s11, s12, s13, s14, s15⟩ :=
    sweepPhase_frame st₁
  obtain ⟨o1, o2, o3, o4, o5, o6, o7, o8, o9, o10, o11, o12, o13, o14, o15, o16⟩ :=
    overflowPhase_frame (interestPhase (sweepPhase st₁)).2
      (interestPhase (sweepPhase st₁)).1
  obtain ⟨y1, y2, y3, y4, y5, y6, y7, y8, y9, y10, y11, y12, y13, y14, y15, y16,
      y17, y18, y19, y20, y21, y22, y23, y24⟩ :=
    yearPhase_frame (overflowPhase (interestPhase (sweepPhase st₁)).2
      (interestPhase (sweepPhase st₁)).1)
  rw [hst', y12, o12, interestPhase_interestPaid, s11, l7, e11, s5, s6]
  set i := st₁.monthlyInt
  set v := st₁.monthlyVarInt
  set P := (sweepPhase st₁).remainingPrincipal
  by_cases hc : (sweepPhase st₁).termsPaid ≥ (sweepPhase st₁).fixedPeriod
  · rw [if_pos hc]
    have hvP : 0 ≤ v * P := mul_nonneg hv hp
    have hexp : i * P + (v - i) * P = v * P := by ring
    linarith
  · rw [if_neg hc]
    have hiP : 0 ≤ i * P := mul_nonneg hi hp
    linarith

/-- Witness for C4 (amended): one month of the concrete `toyLoan` run does
not decrease cumulative interest. -/
theorem step_interest_monotone_witness :
    toyInit.interestPaid ≤ ((step toyInit).getD toyInit).interestPaid :=
  step_interest_monotone toyInit ((lumpPhase (exitPhase toyInit)).getD toyInit)
    ((step toyInit).getD toyInit) (by decide) (by decide) (by decide)
    (by decide) (by decide)

/-- Counterexample to **C7** as stated: with `overflow_principal_abs` set to
`0.0` the Python truthiness test `elif budget.overflow_principal_abs:`
skips the branch, so with a negative monthly leftover (−9 here) pending
savings stay 0 instead of increasing by `min(-9, 0) = -9`. -/
theorem overflow_abs_counterexample :
    c7Init.budget.overflow_principal_percent = none ∧
    c7Init.budget.overflow_principal_abs = some 0 ∧
    (interestPhase (sweepPhase c7Init)).2 = -9 ∧
    c7Init.budgetSavings = 0 ∧
    ((step c7Init).getD c7Init).budgetSavings = 0 ∧
    (0 : ℚ) + min (-9 : ℚ) 0 ≠ 0 := by
  refine ⟨rfl, rfl, by decide, rfl, by decide, by decide⟩

/-- **C7 (amended)**: after the principal update, if
`overflow_principal_percent` is set then pending savings change by
`leftover * percent / 100` (this branch wins even when the absolute policy
is also set, and a negative leftover decreases savings — no clamping); else
if `overflow_principal_abs` is set *and nonzero* savings change by
`min(leftover, abs)`; with the absolute amount unset or zero, savings are
unchanged. -/
theorem overflow_spec (ms : ℚ) (st : SimState) :
    (∀ p, st.budget.overflow_principal_percent = some p →
      (overflowPhase ms st).budgetSavings = st.budgetSavings + ms * (p / 100)) ∧
    (st.budget.overflow_principal_percent = none →
      ∀ a, st.budget.overflow_principal_abs = some a → a ≠ 0 →
        (overflowPhase ms st).budgetSavings = st.budgetSavings + min ms a) ∧
    (st.budget.overflow_principal_percent = none →
      (st.budget.overflow_principal_abs = none ∨
        st.budget.overflow_principal_abs = some 0) →
      (overflowPhase ms st).budgetSavings = st.budgetSavings) := by
  refine ⟨fun p hp => ?_, fun hn a ha haz => ?_, fun hn habs => ?_⟩
  · simp [overflowPhase, hp]
  · simp [overflowPhase, hn, ha, haz]
  · rcases habs with h | h <;> simp [overflowPhase, hn, h]

/-- Witness for C7 (amended): with `overflow_principal_abs = 7` and
leftover 3 the pending savings grow by `min 3 7`. -/
theorem overflow_spec_witness :
    (overflowPhase 3 c7AbsSt).budgetSavings = c7AbsSt.budgetSavings + min 3 7 :=
  (overflow_spec 3 c7AbsSt).2.1 (by decide) 7 (by decide) (by decide)

/-- **C1** (code bug): in the concrete run `c1Init`, the REAMORTIZING
payment at month 0 correctly recomputes the payment from the post-payment
principal 2 under the new terms (8/3) and installs the new monthly fixed
(1) and variable (2) rates — but the fixed-period end used by the surcharge
check remains the *original* loan's 1 instead of `0 + 5`
(`reamor_loan.fixed_period += terms_paid` at source line 170 writes to a
copy that is never read).  Hence at month 1, although `1 < 5`, the
surcharge check fires and the run's interest after two months is
`2 + 4/3 + 4/3 = 14/3`, not the `2 + 4/3 = 10/3` the specified shift would
produce. -/
theorem reamortize_fixed_period_bug :
    ((step c1Init).getD c1Init).monthlyPayment = 8 / 3 ∧
    ((step c1Init).getD c1Init).monthlyInt = 1 ∧
    ((step c1Init).getD c1Init).monthlyVarInt = 2 ∧
    ((step c1Init).getD c1Init).termsPaid = 1 ∧
    c1Pay.time + c1NewLoan.fixed_period = 5 ∧
    ((step c1Init).getD c1Init).fixedPeriod = 1 ∧
    ((step c1Init).getD c1Init).termsPaid ≥
      ((step c1Init).getD c1Init).fixedPeriod ∧
    ((step c1Init).getD c1Init).termsPaid < 5 ∧
    ((step ((step c1Init).getD c1Init)).getD c1Init).interestPaid = 14 / 3 := by
  refine ⟨by decide, by decide, by decide, by decide, by decide, by decide,
    by decide, by decide, by decide⟩

/-! ### ARM/fixed bisimulation (C5) -/

theorem lumpPhase_none (st : SimState) (h : st.nextLumpSum = none) :
    lumpPhase st = some st := by
  unfold lumpPhase
  rw [h]

theorem step_of_no_lump (st : SimState) (h : st.nextLumpSum = none) :
    step st = some (yearPhase (overflowPhase
      (interestPhase (sweepPhase (exitPhase st))).2
      (interestPhase (sweepPhase (exitPhase st))).1)) := by
  have hx : (exitPhase st).nextLumpSum = none := by
    rw [(exitPhase_frame st).2.2.2.2.2.2.2.2.2.1]
    exact h
  rw [step, lumpPhase_none _ hx, Option.map_some']

theorem armRel_step (s t : SimState) (h : armRel s t) :
    ∃ s' t', step s = some s' ∧ step t = some t' ∧ armRel s' t' := by
  obtain ⟨hrem, hpay, hint, hterm, hbud, hsav, hex, hns, hnt, hps, hpt, hop, hoa⟩ := h
  obtain ⟨es1, es2, es3, es4, es5, es6, es7, es8, es9, es10, es11, es12, es13,
      es14, es15⟩ := exitPhase_frame s
  obtain ⟨et1, et2, et3, et4, et5, et6, et7, et8, et9, et10, et11, et12, et13,
      et14, et15⟩ := exitPhase_frame t
  obtain ⟨ss1, ss2, ss3, ss4, ss5, ss6, ss7, ss8, ss9, ss10, ss11, ss12, ss13,
      ss14, ss15⟩ := sweepPhase_frame (exitPhase s)
  obtain ⟨tt1, tt2, tt3, tt4, tt5, tt6, tt7, tt8, tt9, tt10, tt11, tt12, tt13,
      tt14, tt15⟩ := sweepPhase_frame (exitPhase t)
  obtain ⟨is1, is2, is3, is4, is5, is6, is7, is8, is9, is10, is11, is12, is13,
      is14, is15⟩ := interestPhase_frame (sweepPhase (exitPhase s))
  obtain ⟨it1, it2, it3, it4, it5, it6, it7, it8, it9, it10, it11, it12, it13,
      it14, it15⟩ := interestPhase_frame (sweepPhase (exitPhase t))
  have hosb : (interestPhase (sweepPhase (exitPhase s))).1.budget = s.budget := by
    rw [is8, ss8, es7]
  have hotb : (interestPhase (sweepPhase (exitPhase t))).1.budget = t.budget := by
    rw [it8, tt8, et7]
  have hos : overflowPhase (interestPhase (sweepPhase (exitPhase s))).2
      (interestPhase (sweepPhase (exitPhase s))).1 =
      (interestPhase (sweepPhase (exitPhase s))).1 :=
    overflowPhase_none _ _ (by rw [hosb]; exact hop) (by rw [hosb]; exact hoa)
  have hot : overflowPhase (interestPhase (sweepPhase (exitPhase t))).2
      (interestPhase (sweepPhase (exitPhase t))).1 =
      (interestPhase (sweepPhase (exitPhase t))).1 :=
    overflowPhase_none _ _ (by rw [hotb, ← hbud]; exact hop)
      (by rw [hotb, ← hbud]; exact hoa)
  obtain ⟨ys1, ys2, ys3, ys4, ys5, ys6, ys7, ys8, ys9, ys10, ys11, ys12, ys13,
      ys14, ys15, ys16, ys17, ys18, ys19, ys20, ys21, ys22, ys23, ys24⟩ :=
    yearPhase_frame (interestPhase (sweepPhase (exitPhase s))).1
  obtain ⟨yt1, yt2, yt3, yt4, yt5, yt6, yt7, yt8, yt9, yt10, yt11, yt12, yt13,
      yt14, yt15, yt16, yt17, yt18, yt19, yt20, yt21, yt22, yt23, yt24⟩ :=
    yearPhase_frame (interestPhase (sweepPhase (exitPhase t))).1
  have hswrem : (sweepPhase (exitPhase s)).remainingPrincipal =
      (sweepPhase (exitPhase t)).remainingPrincipal := by
    rw [sweepPhase_remainingPrincipal, sweepPhase_remainingPrincipal,
      es8, et8, es7, et7, es1, et1, hrem, hsav, hbud]
  have hswpay : (sweepPhase (exitPhase s)).monthlyPayment =
      (sweepPhase (exitPhase t)).monthlyPayment := by
    rw [ss4, tt4, es3, et3, hpay]
  have hswint : (sweepPhase (exitPhase s)).monthlyInt =
      (sweepPhase (exitPhase t)).monthlyInt := by
    rw [ss5, tt5, es4, et4, hint]
  have hswsav : (sweepPhase (exitPhase s)).budgetSavings =
      (sweepPhase (exitPhase t)).budgetSavings := by
    rw [sweepPhase_budgetSavings, sweepPhase_budgetSavings,
      es8, et8, es7, et7, hsav, hbud]
  have hswterm : (sweepPhase (exitPhase s)).termsPaid =
      (sweepPhase (exitPhase t)).termsPaid := by
    rw [ss1, tt1, es2, et2, hterm]
  refine ⟨_, _, step_of_no_lump s hns, step_of_no_lump t hnt, ?_⟩
  rw [hos, hot]
  refine ⟨?_, ?_, ?_, ?_, ?_, ?_, ?_, ?_, ?_, ?_, ?_, ?_, ?_⟩
  · rw [ys4, yt4, interestPhase_remainingPrincipal,
      interestPhase_remainingPrincipal, hswrem, hswpay, hswint]
  · rw [ys5, yt5, is4, it4, hswpay]
  · rw [ys6, yt6, is5, it5, hswint]
  · rw [ys1, yt1, is1, it1, hswterm]
  · rw [yearPhase_budget, yearPhase_budget, hosb, hotb, is1, it1, hswterm,
      ← hbud, tt1, et2, ← hterm]
  · rw [ys9, yt9, is9, it9, hswsav]
  · rw [ys2, yt2, is2, it2, ss2, tt2, exitPhase_exitsRem, exitPhase_exitsRem,
      hex, hterm]
  · rw [ys11, is11, ss10, es10, hns]
  · rw [yt11, it11, tt10, et10, hnt]
  · rw [ys10, is10, ss9, es9, hps]
  · rw [yt10, it10, tt9, et9, hpt]
  · rw [ys23, hosb, hop]
  · rw [ys24, hosb, hoa]

theorem armRel_run : ∀ (n : ℕ) (s t : SimState), armRel s t →
    (run n s = none ∧ run n t = none) ∨
    ∃ s' t', run n s = some s' ∧ run n t = some t' ∧ armRel s' t' := by
  intro n
  induction n with
  | zero =>
    intro s t h
    have hrem : s.remainingPrincipal = t.remainingPrincipal := h.1
    rw [run, run, hrem]
    by_cases hg : t.remainingPrincipal > 0
    · rw [if_pos hg, if_pos hg]
      exact Or.inl ⟨rfl, rfl⟩
    · rw [if_neg hg, if_neg hg]
      exact Or.inr ⟨s, t, rfl, rfl, h⟩
  | succ n ih =>
    intro s t h
    have hrem : s.remainingPrincipal = t.remainingPrincipal := h.1
    rw [run, run, hrem]
    by_cases hg : t.remainingPrincipal > 0
    · rw [if_pos hg, if_pos hg]
      obtain ⟨s', t', hs', ht', hrel⟩ := armRel_step s t h
      rw [hs', ht', Option.some_bind, Option.some_bind]
      exact ih s' t' hrel
    · rw [if_neg hg, if_neg hg]
      exact Or.inr ⟨s, t, rfl, rfl, h⟩

/-- **C5**: the variable-rate surcharge is charged to cumulative interest
and against the monthly leftover but is absent from the principal update
(which stays `remaining -= payment - monthly_int * remaining`); hence an
ARM run with no lump sums and the overflow policy off has exactly the
remaining-principal trajectory of the otherwise-identical fully-fixed run,
month by month. -/
theorem arm_surcharge_refinement (l1 l2 : Loan) (b : Budget) (exits : List ℕ)
    (mp : ℚ) (hamt : l1.amount = l2.amount) (hrate : l1.rate = l2.rate)
    (hperc : b.overflow_principal_percent = none)
    (habs : b.overflow_principal_abs = none) :
    (∀ s : SimState, (interestPhase s).1.remainingPrincipal =
        s.remainingPrincipal -
          (s.monthlyPayment - s.monthlyInt * s.remainingPrincipal)) ∧
    (∀ s : SimState, s.termsPaid ≥ s.fixedPeriod →
        (interestPhase s).1.interestPaid =
          s.interestPaid + s.monthlyInt * s.remainingPrincipal +
            (s.monthlyVarInt - s.monthlyInt) * s.remainingPrincipal ∧
        (interestPhase s).2 = s.budget.monthly_income -
          (s.budget.monthly_expenses + s.monthlyPayment +
            s.budget.monthly_prop_tax) -
          (s.monthlyVarInt - s.monthlyInt) * s.remainingPrincipal) ∧
    (∀ n : ℕ,
      (run n (initState l1 b [] exits mp)).map SimState.remainingPrincipal =
      (run n (initState l2 b [] exits mp)).map SimState.remainingPrincipal) := by
  refine ⟨fun s => interestPhase_remainingPrincipal s, fun s hs => ?_, fun n => ?_⟩
  · rw [interestPhase_interestPaid, interestPhase_monthlySavings, if_pos hs]
    exact ⟨rfl, rfl⟩
  · have hrel : armRel (initState l1 b [] exits mp) (initState l2 b [] exits mp) := by
      refine ⟨?_, rfl, ?_, rfl, rfl, rfl, rfl, rfl, rfl, rfl, rfl, hperc, habs⟩
      · simp [initState, hamt]
      · simp [initState, hrate]
    rcases armRel_run n _ _ hrel with ⟨h1, h2⟩ | ⟨s', t', h1, h2, hrel'⟩
    · rw [h1, h2]
    · rw [h1, h2, Option.map_some', Option.map_some', hrel'.1]

/-- Witness for C5: the concrete ARM `toyArm` (fixed period 0, variable
rate 2400) and the fully fixed `toyLoan` produce the same
remaining-principal value after 2 months. -/
theorem arm_surcharge_refinement_witness :
    (run 2 (initState toyLoan zeroBudget [] [] 4)).map
      SimState.remainingPrincipal =
    (run 2 (initState toyArm zeroBudget [] [] 4)).map
      SimState.remainingPrincipal :=
  (arm_surcharge_refinement toyLoan toyArm zeroBudget [] 4
    (by decide) (by decide) (by decide) (by decide)).2.2 2

/-! ### Exit bookkeeping (C2) -/

theorem exitPhase_of_nil (st : SimState) (h : st.exitsRem = []) :
    exitPhase st = st := by
  simp [exitPhase, h]

theorem exitPhase_of_hit (st : SimState) (e : ℕ) (rest : List ℕ)
    (h : st.exitsRem = e :: rest) (ht : st.termsPaid = e) :
    exitPhase st =
      { st with exitsRem := rest, loanEvals := st.loanEvals ++ [snapshot st] } := by
  simp [exitPhase, h, ht]

theorem exitPhase_of_miss (st : SimState) (e : ℕ) (rest : List ℕ)
    (h : st.exitsRem = e :: rest) (ht : st.termsPaid ≠ e) :
    exitPhase st = st := by
  simp [exitPhase, h, ht]

theorem filter_lt_of_le (l : List ℕ) (m : ℕ) (hb : ∀ e ∈ l, m ≤ e) :
    l.filter (fun e => decide (e < m)) = [] := by
  rw [List.filter_eq_nil_iff]
  intro e he
  simp only [decide_eq_true_eq, not_lt]
  exact hb e he

theorem run_exits : ∀ (fuel : ℕ) (st st' : SimState), run fuel st = some st' →
    st.exitsRem.Sorted (· < ·) →
    (∀ e ∈ st.exitsRem, st.termsPaid ≤ e) →
    st.termsPaid ≤ st'.termsPaid ∧
    st'.loanEvals.map LoanEval.length =
      st.loanEvals.map LoanEval.length ++
        st.exitsRem.filter (fun e => decide (e < st'.termsPaid)) := by
  intro fuel
  induction fuel with
  | zero =>
    intro st st' h hsort hbound
    rw [run] at h
    split at h
    · cases h
    · cases h
      exact ⟨le_refl _, by rw [filter_lt_of_le _ _ hbound, List.append_nil]⟩
  | succ n ih =>
    intro st st' h hsort hbound
    rw [run] at h
    by_cases hg : st.remainingPrincipal > 0
    · rw [if_pos hg, Option.bind_eq_some] at h
      obtain ⟨st₂, hstep, hrun⟩ := h
      obtain ⟨f1, f2, f3, -⟩ := step_frame st st₂ hstep
      cases hex : st.exitsRem with
      | nil =>
        have hexit := exitPhase_of_nil st hex
        have hex2 : st₂.exitsRem = [] := by rw [f2, hexit, hex]
        have hev2 : st₂.loanEvals = st.loanEvals := by rw [f3, hexit]
        obtain ⟨ihle, ihmap⟩ := ih st₂ st' hrun
          (by rw [hex2]; exact List.sorted_nil)
          (by rw [hex2]; intro e he; cases he)
        refine ⟨by omega, ?_⟩
        rw [ihmap, hev2, hex2]
      | cons e rest =>
        rw [hex] at hsort hbound
        have hrest_sorted : rest.Sorted (· < ·) := (List.sorted_cons.mp hsort).2
        have hrest_gt : ∀ x ∈ rest, e < x := (List.sorted_cons.mp hsort).1
        by_cases ht : st.termsPaid = e
        · have hexit := exitPhase_of_hit st e rest hex ht
          have hex2 : st₂.exitsRem = rest := by rw [f2, hexit]
          have hev2 : st₂.loanEvals = st.loanEvals ++ [snapshot st] := by
            rw [f3, hexit]
          obtain ⟨ihle, ihmap⟩ := ih st₂ st' hrun
            (by rw [hex2]; exact hrest_sorted)
            (by
              rw [hex2, f1, ht]
              intro x hx
              exact Nat.succ_le_of_lt (hrest_gt x hx))
          have hlt : e < st'.termsPaid := by
            have : st.termsPaid + 1 ≤ st'.termsPaid := f1 ▸ ihle
            omega
          refine ⟨by omega, ?_⟩
          rw [ihmap, hev2, hex2, List.map_append,
            List.filter_cons_of_pos (by simpa using hlt), List.append_assoc]
          simp [snapshot, ht]
        · have hexit := exitPhase_of_miss st e rest hex ht
          have hex2 : st₂.exitsRem = e :: rest := by rw [f2, hexit, hex]
          have hev2 : st₂.loanEvals = st.loanEvals := by rw [f3, hexit]
          have hlt_e : st.termsPaid < e :=
            lt_of_le_of_ne (hbound e (List.mem_cons_self e rest)) ht
          obtain ⟨ihle, ihmap⟩ := ih st₂ st' hrun
            (by rw [hex2]; exact hsort)
            (by
              rw [hex2, f1]
              intro x hx
              rcases List.mem_cons.mp hx with rfl | hx'
              · omega
              · have := hrest_gt x hx'
                omega)
          refine ⟨by omega, ?_⟩
          rw [ihmap, hev2, hex2]
    · rw [if_neg hg] at h
      cases h
      exact ⟨le_refl _, by rw [filter_lt_of_le _ _ hbound, List.append_nil]⟩

/-- **C2**: with strictly ascending exits, the emitted snapshot `length`
values are exactly the exits that lie strictly before the payoff month, in
order, followed by the payoff month itself; in particular when every exit
month is reached before payoff the result has `exits.length + 1` entries
whose lengths are the exits in order plus the payoff month, and any exit at
or beyond the payoff month is never emitted.  The final payoff snapshot is
always the last entry, however many exits were consumed. -/
theorem LoanCalc_exit_snapshots (fuel : ℕ) (loan : Loan) (budget : Budget)
    (payments : List PrincipalPayment) (exits : List ℕ) (res : List LoanEval)
    (L : ℕ) (hsorted : exits.Sorted (· < ·))
    (h : LoanCalc fuel loan budget payments exits = some res)
    (hL : payoffLength fuel loan budget payments exits = some L) :
    res.map LoanEval.length =
      exits.filter (fun e => decide (e < L)) ++ [L] ∧
    ((∀ e ∈ exits, e < L) →
      res.map LoanEval.length = exits ++ [L] ∧
      res.length = exits.length + 1) := by
  obtain ⟨mp, st', hmp, hrun, hres⟩ :=
    LoanCalc_decomp fuel loan budget payments exits res h
  have hL' : st'.termsPaid = L := by
    rw [payoffLength, Option.map_eq_some'] at hL
    obtain ⟨stf, hbind, hfin⟩ := hL
    rw [Option.bind_eq_some] at hbind
    obtain ⟨mp₂, hmp₂, hrunf⟩ := hbind
    rw [hmp] at hmp₂
    injection hmp₂ with hmpe
    rw [← hmpe] at hrunf
    rw [hrun] at hrunf
    injection hrunf with hstf
    rw [← hstf] at hfin
    exact hfin
  obtain ⟨-, hmap⟩ := run_exits fuel _ st' hrun
    (by simpa [initState] using hsorted)
    (by simp [initState])
  have hmain : res.map LoanEval.length =
      exits.filter (fun e => decide (e < L)) ++ [L] := by
    rw [hres, List.map_append, hmap]
    simp [initState, snapshot, hL']
  refine ⟨hmain, fun hall => ?_⟩
  have hfe : exits.filter (fun e => decide (e < L)) = exits :=
    List.filter_eq_self.mpr (fun e he => by simpa using hall e he)
  refine ⟨by rw [hmain, hfe], ?_⟩
  have hlen := congrArg List.length hmain
  rw [List.length_map, hfe, List.length_append, List.length_singleton] at hlen
  exact hlen

/-- Witness for C2: the concrete `toyLoan` run with one exit at month 1 and
payoff at month 2 yields snapshot lengths `[1, 2]` and two entries. -/
theorem LoanCalc_exit_snapshots_witness :
    toyRes.map LoanEval.length =
      [1].filter (fun e => decide (e < 2)) ++ [2] ∧
    ((∀ e ∈ [1], e < 2) →
      toyRes.map LoanEval.length = [1] ++ [2] ∧
      toyRes.length = [1].length + 1) :=
  LoanCalc_exit_snapshots 3 toyLoan zeroBudget [] [1] toyRes 2
    (by decide) (by decide) (by decide)

end LoanSim
